import Mathlib

/-!
Shallow embedding of `src/lib/itemsense-queue-connector.js` (current version,
lines 1-645) together with the parts of `src/lib/itemsense-requests.js` that
the connector calls.  The connector maintains three independent "supervisors"
(item, threshold, health queue roles); each supervisor resolves a queue name,
opens an AMQP connection/channel, consumes messages through an admission
filter, and schedules retries on failure.  The definitions below translate the
relevant source functions; the theorems settle the frozen claims about them.
-/

namespace IQC

/-! ### Constants (itemsense-queue-connector.js lines 20-28) -/

def DEFAULT_HOSTNAME : String := "127.0.0.1"

def DEFAULT_PORT : Int := 80

def DEFAULT_CONN_RETRY : Int := 30000

def DEFAULT_CONN_HEARTBEAT : Int := 30000

/-- amqplib connection heartbeat unit is seconds (line 27). -/
def MIN_CONN_HEARTBEAT : Int := 1

def MIN_CONN_RETRY : Int := 1000

/-! ### JavaScript option values and `createOptions` (lines 36-67)

`createOptions` merges a caller-supplied plain object into a defaults object
with `if (options[opt]) defaults[opt] = options[opt];` — a truthiness test.
`start` (lines 139-143) merges with `if (options[opt] !== undefined)`.
We model the JS values an option slot can hold.  `num` carries an integer:
the numeric options of this module are millisecond counts and a port; the JS
`NaN` value never arises as a supplied option here (and would be falsy like 0,
so modelling it would only add another falsy numeric value). -/

inductive JSValue where
  | undef : JSValue
  | jsNull : JSValue
  | bool : Bool → JSValue
  | num : Int → JSValue
  | str : String → JSValue
  | obj : JSValue
deriving DecidableEq

/-- JavaScript truthiness, restricted to the values above: `undefined`,
`null`, `false`, `0` and `""` are falsy; objects are always truthy. -/
def truthy : JSValue → Bool
  | .undef => false
  | .jsNull => false
  | .bool b => b
  | .num n => n != 0
  | .str s => s != ""
  | .obj => true

/-- The recognized option keys: exactly the keys of the `defaults` object in
`createOptions` (lines 37-58).  The `for (let opt in defaults)` loop iterates
over these keys only, so unrecognized supplied keys are ignored. -/
inductive OptKey where
  | id | name
  | hostname | port | username | password
  | connectionRetryInterval | connectionHeartbeatInterval
  | itemQueueName | itemQueueFilter | thresholdQueueName | healthQueueName
  | ignoreAbsent | maxObservationTimeDelta
deriving DecidableEq

/-- The `defaults` object literal of `createOptions` (lines 37-58). -/
def defaultOptions : OptKey → JSValue
  | .id => .str "ItemSenseQueueConnector"
  | .name => .str "ItemSenseQueueConnector"
  | .hostname => .str DEFAULT_HOSTNAME
  | .port => .num DEFAULT_PORT
  | .username => .str ""
  | .password => .str ""
  | .connectionRetryInterval => .num DEFAULT_CONN_RETRY
  | .connectionHeartbeatInterval => .num DEFAULT_CONN_HEARTBEAT
  | .itemQueueName => .str ""
  | .itemQueueFilter => .obj
  | .thresholdQueueName => .str ""
  | .healthQueueName => .str ""
  | .ignoreAbsent => .bool false
  | .maxObservationTimeDelta => .num 0

/-- `createOptions(options)` (lines 36-67): for each recognized key, the
supplied value replaces the default exactly when it is truthy.  A supplied
object is modelled as a total function, with `undef` standing for an absent
key (JS property reads of absent keys yield `undefined`). -/
def createOptions (supplied : OptKey → JSValue) : OptKey → JSValue :=
  fun k => if truthy (supplied k) then supplied k else defaultOptions k

/-- The option-merging loop of `start(options)` (lines 139-143): a supplied
value replaces the current one exactly when it is not `undefined`. -/
def startMerge (current supplied : OptKey → JSValue) : OptKey → JSValue :=
  fun k => if supplied k = JSValue.undef then current k else supplied k

/-! ### Typed connector options

The supervisors read `this.options` fields with definite types (strings,
numbers, booleans); `createOptions` guarantees this shape.  Millisecond
intervals are nonnegative counts; `maxObservationTimeDelta` and
`connectionRetryInterval` keep type `Int` since the code compares and
`Math.max`es them as plain numbers. -/

structure Options where
  itemQueueName : String
  thresholdQueueName : String
  healthQueueName : String
  connectionRetryInterval : Int
  connectionHeartbeatInterval : Nat
  ignoreAbsent : Bool
  maxObservationTimeDelta : Int
deriving DecidableEq

/-! ### Heartbeat and retry-delay computations

All three `_connect*Queue` bodies compute (lines 249-252, 375-378, 506-509)
`Math.max(MIN_CONN_HEARTBEAT, Math.floor(connectionHeartbeatInterval * 0.001))`.
We model the JS number `connectionHeartbeatInterval * 0.001` as the exact
rational `hbMs * (1/1000)`: for integer millisecond values in the realistic
range the double-precision product `n * 0.001` floors to the same integer as
the exact product, since the rounding error is far smaller than the distance
from `n/1000` to the nearest integer below it whenever `1000 ∤ n`, and the
correctly rounded product of `n` and the double nearest `0.001` is exactly
`n/1000` when `1000 ∣ n`. -/

def heartbeatSeconds (hbMs : Nat) : Int :=
  max MIN_CONN_HEARTBEAT ⌊(hbMs : ℚ) * (1 / 1000)⌋

/-- The retry delay computed identically in `_retryConnectItemQueue`,
`_retryConnectThresholdQueue` and `_retryConnectHealthQueue`
(lines 177-180, 197-200, 217-220):
`Math.max(MIN_CONN_RETRY, this.options.connectionRetryInterval)`. -/
def retryDelay (opts : Options) : Int :=
  max MIN_CONN_RETRY opts.connectionRetryInterval

/-! ### Message admission (consume callbacks, lines 322-350 / 450-477 / 556-583)

Each consume callback acks, JSON-decodes the payload, then applies the same
admission logic.  We embed the post-decode logic.  `Date.parse` in JS returns
the JS number `NaN` on an unparsable string — it does not throw — so the
arithmetic inside the `try` block cannot raise and the `catch` branch
(lines 339-346) is unreachable; we model the JS number that
`Date.now() - Date.parse(...)` produces, including its `NaN` case, and the
JS comparison semantics in which any comparison with `NaN` is false. -/

/-- A JS number that is either a genuine integer or `NaN`. -/
inductive JSNum where
  | nan : JSNum
  | int : Int → JSNum
deriving DecidableEq

/-- JS subtraction: any operation involving `NaN` yields `NaN`. -/
def jsSub : JSNum → JSNum → JSNum
  | .int a, .int b => .int (a - b)
  | _, _ => .nan

/-- JS `>` against a plain number: every comparison with `NaN` is false. -/
def jsGt : JSNum → Int → Bool
  | .nan, _ => false
  | .int a, b => a > b

/-- The decoded fields of a queue message that the admission logic reads. -/
structure QueueMessage where
  toZone : String
  observationTime : String
deriving DecidableEq

/-- Outcome of one consume-callback run on a decoded message. -/
inductive Admission where
  | delivered : Admission
  | droppedAbsent : Admission
  | droppedStale : Admission
deriving DecidableEq

/-- The admission logic of the item-queue consume callback (lines 329-349);
the threshold (457-477) and health (563-583) callbacks repeat it verbatim.
`parseDate` stands for `Date.parse` (environment: `.nan` for an unparsable
string), `now` for `Date.now()`.  The message is handed to the sink
(`delivered`) unless the ABSENT test (line 329) or the staleness test
(lines 333-338) returns early.  The `catch (unused)` branch of the source is
omitted because its `try` body cannot throw: `Date.parse` yields `NaN`, the
subtraction yields `NaN`, and `NaN > maxObservationTimeDelta` is false, so an
unparsable `observationTime` falls through to delivery. -/
def admitMessage (opts : Options) (parseDate : String → JSNum) (now : Int)
    (msg : QueueMessage) : Admission :=
  if opts.ignoreAbsent && msg.toZone == "ABSENT" then
    .droppedAbsent
  else if opts.maxObservationTimeDelta > 0 then
    if jsGt (jsSub (.int now) (parseDate msg.observationTime))
        opts.maxObservationTimeDelta then
      .droppedStale
    else
      .delivered
  else
    .delivered

/-- The staleness test in isolation: true when the message survives
lines 333-338 (either staleness filtering is disabled or the computed delta
does not exceed the bound — including the `NaN` delta of an unparsable
timestamp, which never exceeds anything in JS). -/
def passesStaleness (opts : Options) (parseDate : String → JSNum) (now : Int)
    (msg : QueueMessage) : Bool :=
  !(opts.maxObservationTimeDelta > 0 &&
    jsGt (jsSub (.int now) (parseDate msg.observationTime))
      opts.maxObservationTimeDelta)

/-! ### Queue-name resolution (lines 266-300, 392-428, 497-535)

After opening the channel, each supervisor resolves the queue to consume.
The environment captures the outcomes of the external calls the resolution
makes on a given attempt: `queueExists name` is whether
`channel.checkQueue(name)` succeeds, and `provisionedName` is the queue name
a successful `requests.create*Queue` call returns.  Failures of the
provisioning call itself or of `createChannel` propagate to the enclosing
`try`/`catch`, which emits the error and schedules a retry; the `failed`
field of the result records that path. -/

structure ProvisionEnv where
  queueExists : String → Bool
  provisionedName : String

/-- What one resolution attempt did: the name finally consumed (meaningful
when `failed = false`), whether `checkQueue` was invoked on the configured
name, whether a provisioning request was issued, whether the "no longer
exists" error was emitted, whether the channel was re-created after a failed
validation, whether the enclosing catch fired, and the updated options. -/
structure ResolveResult where
  resolvedName : String
  validated : Bool
  provisioned : Bool
  reportedMissing : Bool
  reopenedChannel : Bool
  failed : Bool
  newOptions : Options
deriving DecidableEq

/-- Lines 272-296 of `_connectItemQueue`: a non-empty configured
`itemQueueName` (JS string truthiness) is validated with `checkQueue`; on
validation failure the supervisor emits the "no longer exists" error,
provisions via `requests.createItemQueue` (which sends `itemQueueFilter`),
re-creates the channel, and stores the new name in the options; an empty
configured name provisions directly and stores the new name. -/
def resolveItemQueue (opts : Options) (env : ProvisionEnv) : ResolveResult :=
  if opts.itemQueueName != "" then
    if env.queueExists opts.itemQueueName then
      { resolvedName := opts.itemQueueName, validated := true,
        provisioned := false, reportedMissing := false,
        reopenedChannel := false, failed := false, newOptions := opts }
    else
      { resolvedName := env.provisionedName, validated := true,
        provisioned := true, reportedMissing := true,
        reopenedChannel := true, failed := false,
        newOptions := { opts with itemQueueName := env.provisionedName } }
  else
    { resolvedName := env.provisionedName, validated := false,
      provisioned := true, reportedMissing := false,
      reopenedChannel := false, failed := false,
      newOptions := { opts with itemQueueName := env.provisionedName } }

/-- Lines 398-424 of `_connectThresholdQueue`: same branch structure as the
item resolution, but both provisioning branches call
`requests.createThresholdQueue(...)` — a function `itemsense-requests.js`
does not export (its `module.exports` lists only `createItemQueue`,
`createHealthQueue` and `isServerAvailable`), so the call throws a
`TypeError` that the enclosing `try`/`catch` (lines 392-428) turns into an
emitted error and a scheduled retry: no provisioning request is ever issued
for the threshold role. -/
def resolveThresholdQueue (opts : Options) (env : ProvisionEnv) : ResolveResult :=
  if opts.thresholdQueueName != "" then
    if env.queueExists opts.thresholdQueueName then
      { resolvedName := opts.thresholdQueueName, validated := true,
        provisioned := false, reportedMissing := false,
        reopenedChannel := false, failed := false, newOptions := opts }
    else
      { resolvedName := "", validated := true,
        provisioned := false, reportedMissing := true,
        reopenedChannel := false, failed := true, newOptions := opts }
  else
    { resolvedName := "", validated := false,
      provisioned := false, reportedMissing := false,
      reopenedChannel := false, failed := true, newOptions := opts }

/-- Lines 497-531 of `_connectHealthQueue`: the local `healthQueueName` is
declared without reading `this.options.healthQueueName`; the supervisor
always provisions directly via `requests.createHealthQueue` and never calls
`checkQueue`, never emits a "no longer exists" error, and never stores the
name back into the options. -/
def resolveHealthQueue (opts : Options) (env : ProvisionEnv) : ResolveResult :=
  { resolvedName := env.provisionedName, validated := false,
    provisioned := true, reportedMissing := false,
    reopenedChannel := false, failed := false, newOptions := opts }

/-! ### Connection-level event handlers (lines 302-320, 430-448, 537-554)

Each supervisor registers an `error` handler and a `close` handler on its
AMQP connection.  A close event may carry an error (`err` truthy) or not;
amqplib emits `close` with the error right after any `error` event. -/

/-- Events a handler can emit through `_emitEventMessage`. -/
inductive Emitted where
  | errorEv : String → Emitted
  | amqpConnectionClosed : Emitted
deriving DecidableEq

/-- Net effect of running one connection event handler: the options after the
handler, the events it emitted, and whether it invoked the corresponding
`_retryConnect*` (scheduling a retry). -/
structure HandlerResult where
  newOptions : Options
  emitted : List Emitted
  scheduledRetry : Bool
deriving DecidableEq

/-- The item connection `error` handler (lines 302-308): emits an error and
schedules a retry; it does not touch `options.itemQueueName`. -/
def itemConnErrorHandler (opts : Options) : HandlerResult :=
  { newOptions := opts,
    emitted := [.errorEv "Item queue connection interrupted."],
    scheduledRetry := true }

/-- The item connection `close` handler (lines 309-320): a close carrying an
error clears `options.itemQueueName`, emits `amqpConnectionClosed` and
schedules a retry; a clean close only emits `amqpConnectionClosed`. -/
def itemConnCloseHandler (opts : Options) (err : Option String) : HandlerResult :=
  match err with
  | some _ =>
    { newOptions := { opts with itemQueueName := "" },
      emitted := [.amqpConnectionClosed], scheduledRetry := true }
  | none =>
    { newOptions := opts,
      emitted := [.amqpConnectionClosed], scheduledRetry := false }

/-- The threshold connection `error` handler (lines 430-436). -/
def thresholdConnErrorHandler (opts : Options) : HandlerResult :=
  { newOptions := opts,
    emitted := [.errorEv "Threshold queue connection interrupted."],
    scheduledRetry := true }

/-- The threshold connection `close` handler (lines 437-448). -/
def thresholdConnCloseHandler (opts : Options) (err : Option String) : HandlerResult :=
  match err with
  | some _ =>
    { newOptions := { opts with thresholdQueueName := "" },
      emitted := [.amqpConnectionClosed], scheduledRetry := true }
  | none =>
    { newOptions := opts,
      emitted := [.amqpConnectionClosed], scheduledRetry := false }

/-- The health connection `error` handler (lines 537-543). -/
def healthConnErrorHandler (opts : Options) : HandlerResult :=
  { newOptions := opts,
    emitted := [.errorEv "Health queue connection interrupted."],
    scheduledRetry := true }

/-- The health connection `close` handler (lines 544-554): no queue name is
stored in the options for the health role, so nothing is cleared. -/
def healthConnCloseHandler (opts : Options) (err : Option String) : HandlerResult :=
  match err with
  | some _ =>
    { newOptions := opts,
      emitted := [.amqpConnectionClosed], scheduledRetry := true }
  | none =>
    { newOptions := opts,
      emitted := [.amqpConnectionClosed], scheduledRetry := false }

/-! ### Retry timers and the per-supervisor lifecycle

`_retryConnectItemQueue` (lines 174-192) is the only place the item
supervisor creates a timer: it calls `clearTimeout` on the stored handle,
then stores the handle of a fresh `setTimeout` whose callback re-runs
`_connectItemQueue`.  `_retryConnectThresholdQueue` (194-212) and
`_retryConnectHealthQueue` (214-232) are verbatim copies for their roles, so
one machine models any one supervisor.  `start` (135-151) clears the stored
handles and connects; `shutdown` (600-634) sets `_started = false`, clears
the item/threshold queue names and closes resources — it contains no
`clearTimeout`.  `_connectItemQueue` begins with `if (!this._started) return;`
(line 238). -/

/-- The timer bookkeeping of one supervisor: the stored handle (initially
`-1`, line 89), the ids of timers that are scheduled and have neither fired
nor been cleared, and a supply of fresh ids (all `≥ 0`). -/
structure TimerState where
  handle : Int
  live : List Int
  nextId : Int
deriving DecidableEq

/-- `clearTimeout(h)`: cancels the timer with handle `h` if it is still
pending, otherwise does nothing (also the no-op on the `-1` sentinel). -/
def clearTimeoutOn (s : TimerState) (h : Int) : TimerState :=
  { s with live := s.live.erase h }

/-- The body of `_retryConnectItemQueue` (lines 174-192): clear the stored
handle, then schedule a fresh timer and store its handle.  The second
component is the delay passed to `setTimeout` (lines 177-180, 191). -/
def retryConnectTimer (opts : Options) (s : TimerState) : TimerState × Int :=
  let s1 := clearTimeoutOn s s.handle
  ({ handle := s1.nextId, live := s1.nextId :: s1.live,
     nextId := s1.nextId + 1 },
   retryDelay opts)

/-- Lifecycle-relevant state of one supervisor: the `_started` flag, its timer
bookkeeping, and how many times its `_connect*Queue` body has proceeded past
the `if (!this._started) return;` guard (each such pass goes on to open a
broker connection attempt). -/
structure SupState where
  started : Bool
  timer : TimerState
  connectAttempts : Nat
deriving DecidableEq

/-- Constructor state (lines 88-91): not started, handle `-1`, no timers. -/
def initialSupState : SupState :=
  { started := false, timer := { handle := -1, live := [], nextId := 0 },
    connectAttempts := 0 }

/-- The externally triggerable steps of one supervisor, closed under
arbitrary interleavings: `startEv` is a `start()` call; `connectFail` is any
failure path that invokes the matching `_retryConnect*` (lines 246, 263, 299,
or the connection `error`/errored-`close` handlers); `fireTimer h` is the
`setTimeout` callback of timer `h` running (lines 182-191); `shutdownEv` is
a `shutdown()` call. -/
inductive SupEvent where
  | startEv : SupEvent
  | connectFail : SupEvent
  | fireTimer : Int → SupEvent
  | shutdownEv : SupEvent

/-- One step of the supervisor machine.  `start` returns early when already
started (line 136); otherwise it sets the flag, clears the stored handle
(lines 145-147) and calls `_connect*Queue`, which passes its guard.  A fired
timer runs `_connect*Queue`, which passes the guard only when started.
`shutdown` clears the flag and touches no timer. -/
def supStep (opts : Options) (s : SupState) : SupEvent → SupState
  | .startEv =>
    if s.started then s
    else
      { started := true, timer := clearTimeoutOn s.timer s.timer.handle,
        connectAttempts := s.connectAttempts + 1 }
  | .connectFail =>
    { s with timer := (retryConnectTimer opts s.timer).1 }
  | .fireTimer h =>
    if h ∈ s.timer.live then
      let bumped := if s.started then s.connectAttempts + 1 else s.connectAttempts
      { s with
        timer := { s.timer with live := s.timer.live.erase h },
        connectAttempts := bumped }
    else s
  | .shutdownEv =>
    { s with started := false }

/-- A supervisor run from the constructor state over an event trace. -/
def runSup (opts : Options) (evs : List SupEvent) : SupState :=
  evs.foldl (supStep opts) initialSupState

/-- The timer invariant: either no timer is pending, or exactly the one whose
handle is stored. -/
def timerOk (t : TimerState) : Prop :=
  t.live = [] ∨ t.live = [t.handle]

/-! ### `shutdown()` (lines 600-634)

`shutdown` sets `_started = false`, blanks the item and threshold queue
names, and then runs six independent `try { emit info; removeAllListeners;
await close.. } catch (unused) {}` blocks, one per channel/connection slot.
A slot can be `noRes` (still `null`: `null.removeAllListeners()` throws a
`TypeError` before `close()` is reached), `openRes` (close succeeds) or
`closedRes` (`close()` rejects on an already-closed amqplib object); in
every failing case the empty `catch` swallows the exception, so `shutdown`
never raises. -/

inductive Resource where
  | noRes : Resource
  | openRes : Resource
  | closedRes : Resource
deriving DecidableEq

/-- The six channel/connection slots of the connector (lines 80-85). -/
structure Resources where
  itemChan : Resource
  itemConn : Resource
  threshChan : Resource
  threshConn : Resource
  healthChan : Resource
  healthConn : Resource
deriving DecidableEq

/-- One `try`/`catch` block of `shutdown`: returns the slot afterwards, how
many `close()` calls were made (0 or 1) and how many exceptions the empty
`catch` swallowed (0 or 1). -/
def tryCloseResource : Resource → Resource × Nat × Nat
  | .noRes => (.noRes, 0, 1)
  | .openRes => (.closedRes, 1, 0)
  | .closedRes => (.closedRes, 1, 1)

/-- Accumulated outcome of one `shutdown()` call. -/
structure ShutdownResult where
  newOptions : Options
  res : Resources
  closeCalls : Nat
  caughtErrors : Nat
deriving DecidableEq

/-- The body of `shutdown()` (lines 600-634): note there is no guard flag
and no `clearTimeout`; the six blocks always run. -/
def shutdownRun (opts : Options) (r : Resources) : ShutdownResult :=
  let c1 := tryCloseResource r.itemChan
  let c2 := tryCloseResource r.itemConn
  let c3 := tryCloseResource r.threshChan
  let c4 := tryCloseResource r.threshConn
  let c5 := tryCloseResource r.healthChan
  let c6 := tryCloseResource r.healthConn
  { newOptions := { opts with itemQueueName := "", thresholdQueueName := "" },
    res := { itemChan := c1.1, itemConn := c2.1, threshChan := c3.1,
             threshConn := c4.1, healthChan := c5.1, healthConn := c6.1 },
    closeCalls :=
      c1.2.1 + c2.2.1 + c3.2.1 + c4.2.1 + c5.2.1 + c6.2.1,
    caughtErrors :=
      c1.2.2 + c2.2.2 + c3.2.2 + c4.2.2 + c5.2.2 + c6.2.2 }

/-! ### Sample concrete values used by witnesses and counterexamples -/

/-- Options as `createOptions({})` produces them (all defaults). -/
def sampleOptions : Options :=
  { itemQueueName := "", thresholdQueueName := "", healthQueueName := "",
    connectionRetryInterval := 30000, connectionHeartbeatInterval := 30000,
    ignoreAbsent := false, maxObservationTimeDelta := 0 }

/-- A `Date.parse` environment in which every string is unparsable. -/
def parseNone : String → JSNum := fun _ => .nan

/-- A `Date.parse` environment mapping a fixed timestamp string to a fixed
instant and failing on everything else (JS `Date.parse` yields `NaN`). -/
def parseAt (s : String) (t : Int) : String → JSNum :=
  fun x => if x = s then .int t else .nan

/-- Options with staleness filtering enabled (`maxObservationTimeDelta` of
one second), as in the test vector of the spec. -/
def staleCheckOptions : Options :=
  { sampleOptions with maxObservationTimeDelta := 1000 }

/-- A message whose `observationTime` no `Date.parse` call can read. -/
def badTimeMsg : QueueMessage :=
  { toZone := "ZONE_A", observationTime := "not-a-timestamp" }

/-- An ABSENT-zone message carrying a parsable timestamp. -/
def absentStaleMsg : QueueMessage :=
  { toZone := "ABSENT", observationTime := "2024-01-01T00:00:00.000Z" }

/-- Options remembering an item queue name from before a connection loss. -/
def reuseOptionsCx : Options :=
  { sampleOptions with itemQueueName := "existing-queue" }

/-- An environment in which exactly the remembered queue still exists. -/
def reuseEnvCx : ProvisionEnv :=
  { queueExists := fun n => n == "existing-queue",
    provisionedName := "fresh-queue-1" }

/-- Options supplying a non-empty health queue name. -/
def healthOptionsCx : Options :=
  { sampleOptions with healthQueueName := "my-health-queue" }

/-- An environment in which every queue-existence check succeeds. -/
def allExistEnvCx : ProvisionEnv :=
  { queueExists := fun _ => true, provisionedName := "fresh-queue-0" }

/-- A supplied options object whose every value is the falsy number `0`. -/
def falsySupplied : OptKey → JSValue := fun _ => .num 0

/-- All six channel/connection slots assigned and open, as after a run in
which all three supervisors reached consuming. -/
def allOpenRes : Resources :=
  { itemChan := .openRes, itemConn := .openRes, threshChan := .openRes,
    threshConn := .openRes, healthChan := .openRes, healthConn := .openRes }

/-! ### Helper lemmas -/

theorem timerOk_clearTimeoutOn (t : TimerState) (h : Int) (ht : timerOk t) :
    timerOk (clearTimeoutOn t h) := by
  rcases ht with h0 | h1
  · exact Or.inl (by simp [clearTimeoutOn, h0])
  · by_cases he : t.handle = h
    · exact Or.inl (by simp [clearTimeoutOn, h1, he])
    · refine Or.inr ?_
      simp [clearTimeoutOn, h1, List.erase_cons]
      intro hcon
      exact absurd hcon he

theorem live_clearTimeoutOn_self (t : TimerState) (ht : timerOk t) :
    (clearTimeoutOn t t.handle).live = [] := by
  rcases ht with h0 | h1
  · simp [clearTimeoutOn, h0]
  · simp [clearTimeoutOn, h1]

theorem timerOk_retryConnectTimer (opts : Options) (t : TimerState)
    (ht : timerOk t) : timerOk (retryConnectTimer opts t).1 := by
  refine Or.inr ?_
  simp [retryConnectTimer, live_clearTimeoutOn_self t ht]

theorem timerOk_supStep (opts : Options) (s : SupState) (e : SupEvent)
    (hs : timerOk s.timer) : timerOk (supStep opts s e).timer := by
  cases e with
  | startEv =>
    by_cases hst : s.started
    · simpa [supStep, hst] using hs
    · simpa [supStep, hst] using timerOk_clearTimeoutOn s.timer s.timer.handle hs
  | connectFail =>
    simpa [supStep] using timerOk_retryConnectTimer opts s.timer hs
  | fireTimer h =>
    by_cases hm : h ∈ s.timer.live
    · rcases hs with h0 | h1
      · simp [h0] at hm
      · have hh : h = s.timer.handle := by simpa [h1] using hm
        refine Or.inl ?_
        simp [supStep, hm, h1, hh]
    · simpa [supStep, hm] using hs
  | shutdownEv =>
    simpa [supStep] using hs

theorem timerOk_foldl (opts : Options) (evs : List SupEvent) (s : SupState)
    (hs : timerOk s.timer) : timerOk (evs.foldl (supStep opts) s).timer := by
  induction evs generalizing s with
  | nil => exact hs
  | cons e rest ih => exact ih _ (timerOk_supStep opts s e hs)

theorem timerOk_runSup (opts : Options) (evs : List SupEvent) :
    timerOk (runSup opts evs).timer :=
  timerOk_foldl opts evs initialSupState (Or.inl rfl)

theorem tryCloseResource_not_open (x : Resource) :
    (tryCloseResource x).1 ≠ Resource.openRes := by
  cases x <;> simp [tryCloseResource]

theorem tryCloseResource_again (x : Resource) :
    tryCloseResource (tryCloseResource x).1 =
      ((tryCloseResource x).1, (tryCloseResource x).2.1, 1) := by
  cases x <;> rfl

/-! ### Claim theorems -/

/-- Claim C5 (confirmed): the heartbeat passed to `amqp.connect` by every
supervisor, in whole seconds, equals
`max(1, floor(connectionHeartbeatInterval / 1000))` for every configuration
(millisecond interval `hbMs`). -/
theorem heartbeat_is_floored_seconds (hbMs : Nat) :
    heartbeatSeconds hbMs = max 1 ((hbMs : Int) / 1000) := by
  unfold heartbeatSeconds MIN_CONN_HEARTBEAT
  congr 1
  have hcast : ((hbMs : ℚ) * (1 / 1000)) = ((hbMs : Int) : ℚ) / ((1000 : Nat) : ℚ) := by
    push_cast
    ring
  rw [hcast, Rat.floor_intCast_div_natCast]
  norm_num

/-- Claim C7 (confirmed): for each of the three supervisors, a clean close
(no error) is reported via `amqpConnectionClosed` but schedules no retry,
while an error-bearing close and an asynchronous connection error both
schedule a retry. -/
theorem clean_close_reports_without_retry (opts : Options) (e : String) :
    (itemConnCloseHandler opts none).scheduledRetry = false ∧
    (itemConnCloseHandler opts none).emitted = [.amqpConnectionClosed] ∧
    (itemConnCloseHandler opts none).newOptions = opts ∧
    (thresholdConnCloseHandler opts none).scheduledRetry = false ∧
    (thresholdConnCloseHandler opts none).emitted = [.amqpConnectionClosed] ∧
    (thresholdConnCloseHandler opts none).newOptions = opts ∧
    (healthConnCloseHandler opts none).scheduledRetry = false ∧
    (healthConnCloseHandler opts none).emitted = [.amqpConnectionClosed] ∧
    (healthConnCloseHandler opts none).newOptions = opts ∧
    (itemConnCloseHandler opts (some e)).scheduledRetry = true ∧
    (thresholdConnCloseHandler opts (some e)).scheduledRetry = true ∧
    (healthConnCloseHandler opts (some e)).scheduledRetry = true ∧
    (itemConnErrorHandler opts).scheduledRetry = true ∧
    (thresholdConnErrorHandler opts).scheduledRetry = true ∧
    (healthConnErrorHandler opts).scheduledRetry = true :=
  ⟨rfl, rfl, rfl, rfl, rfl, rfl, rfl, rfl, rfl, rfl, rfl, rfl, rfl, rfl, rfl⟩

/-- Claim C6 (confirmed): under an arbitrary interleaving of start, connect
failure, timer firing and shutdown events, at most one retry timer is ever
pending for a supervisor — every reschedule clears the stored handle before
storing a fresh one — and the delay passed to `setTimeout` always equals
`max(1000, connectionRetryInterval)`. -/
theorem at_most_one_pending_retry (opts : Options) (evs : List SupEvent) :
    (runSup opts evs).timer.live.length ≤ 1 ∧
    ∀ t : TimerState,
      (retryConnectTimer opts t).2 = max 1000 opts.connectionRetryInterval := by
  constructor
  · rcases timerOk_runSup opts evs with h0 | h1
    · simp [h0]
    · simp [h1]
  · intro t
    rfl

/-- Claim C10 (confirmed): `createOptions` keeps the default for any
recognized key whose supplied value is falsy and takes the supplied value
exactly when it is truthy, whereas the merge loop in `start` applies every
supplied value that is not `undefined`. -/
theorem createOptions_truthy_start_defined (supplied : OptKey → JSValue)
    (k : OptKey) (current : OptKey → JSValue) :
    (truthy (supplied k) = false → createOptions supplied k = defaultOptions k) ∧
    (truthy (supplied k) = true → createOptions supplied k = supplied k) ∧
    (supplied k ≠ JSValue.undef → startMerge current supplied k = supplied k) := by
  refine ⟨fun h => ?_, fun h => ?_, fun h => ?_⟩
  · simp [createOptions, h]
  · simp [createOptions, h]
  · simp [startMerge, h]

/-- Witness for C10 at a concrete falsy supplied value (`0` for `port`): the
default survives, and the `start` merge would instead apply it. -/
theorem createOptions_truthy_start_defined_witness :
    truthy (falsySupplied OptKey.port) = false ∧
    createOptions falsySupplied OptKey.port = defaultOptions OptKey.port ∧
    startMerge defaultOptions falsySupplied OptKey.port = falsySupplied OptKey.port :=
  ⟨by decide,
   (createOptions_truthy_start_defined falsySupplied OptKey.port defaultOptions).1
     (by decide),
   (createOptions_truthy_start_defined falsySupplied OptKey.port defaultOptions).2.2
     (by decide)⟩

/-- Counterexample to claim C1 as stated: after the asynchronous
connection-level `error` event (one of the two named connection-loss events),
the remembered item queue name is NOT cleared, and the next connect attempt
validates and reuses the pre-loss name instead of provisioning. -/
theorem conn_error_keeps_queue_name_cx :
    (itemConnErrorHandler reuseOptionsCx).scheduledRetry = true ∧
    (itemConnErrorHandler reuseOptionsCx).newOptions.itemQueueName
      = "existing-queue" ∧
    (resolveItemQueue (itemConnErrorHandler reuseOptionsCx).newOptions
      reuseEnvCx).validated = true ∧
    (resolveItemQueue (itemConnErrorHandler reuseOptionsCx).newOptions
      reuseEnvCx).resolvedName = "existing-queue" ∧
    (resolveItemQueue (itemConnErrorHandler reuseOptionsCx).newOptions
      reuseEnvCx).provisioned = false := by
  refine ⟨rfl, rfl, ?_, ?_, ?_⟩ <;> decide

/-- Claim C1 (amended): a close event carrying an error clears the
remembered queue name for the item and threshold roles, so the resolution on
the next attempt never validates or reuses the pre-loss name (the item role
provisions directly; the health role stores no name and never validates).
The asynchronous connection `error` handler schedules a retry but does not
itself clear the name; in amqplib an error-bearing `close` event follows,
whose handler performs the clearing. -/
theorem close_with_error_clears_queue_name (opts : Options) (e : String)
    (env : ProvisionEnv) :
    (itemConnCloseHandler opts (some e)).newOptions.itemQueueName = "" ∧
    (itemConnCloseHandler opts (some e)).scheduledRetry = true ∧
    (thresholdConnCloseHandler opts (some e)).newOptions.thresholdQueueName = "" ∧
    (thresholdConnCloseHandler opts (some e)).scheduledRetry = true ∧
    (resolveItemQueue (itemConnCloseHandler opts (some e)).newOptions env).validated
      = false ∧
    (resolveItemQueue (itemConnCloseHandler opts (some e)).newOptions env).provisioned
      = true ∧
    (resolveThresholdQueue
      (thresholdConnCloseHandler opts (some e)).newOptions env).validated = false ∧
    (resolveHealthQueue opts env).validated = false ∧
    (itemConnErrorHandler opts).newOptions = opts ∧
    (thresholdConnErrorHandler opts).newOptions = opts := by
  refine ⟨rfl, rfl, rfl, rfl, ?_, ?_, ?_, rfl, rfl, rfl⟩
  · simp [itemConnCloseHandler, resolveItemQueue]
  · simp [itemConnCloseHandler, resolveItemQueue]
  · simp [thresholdConnCloseHandler, resolveThresholdQueue]

/-- Counterexample to claim C2 as stated: the health supervisor does not
resolve its queue name the way the claim describes — given a non-empty
configured health queue name it neither validates it nor reuses it, but
provisions directly and consumes the freshly provisioned queue. -/
theorem health_ignores_supplied_name_cx :
    healthOptionsCx.healthQueueName = "my-health-queue" ∧
    (resolveHealthQueue healthOptionsCx allExistEnvCx).validated = false ∧
    (resolveHealthQueue healthOptionsCx allExistEnvCx).provisioned = true ∧
    (resolveHealthQueue healthOptionsCx allExistEnvCx).resolvedName
      = "fresh-queue-0" := by
  refine ⟨rfl, rfl, rfl, rfl⟩

/-- Claim C2 (amended): on each connect attempt the item supervisor resolves
its queue name as the claim describes — a non-empty configured name is
validated; a failed validation reports the queue-missing error, provisions
via the filter spec and re-opens the channel; an empty name provisions
directly — but the health supervisor ignores any configured name and always
provisions directly without validating, and the threshold
provisioning branches always fail (its `requests.createThresholdQueue` does
not exist), so the threshold role never provisions. -/
theorem resolve_queue_name_pattern (opts : Options) (env : ProvisionEnv) :
    (resolveItemQueue opts env).validated = (opts.itemQueueName != "") ∧
    (resolveItemQueue opts env).reportedMissing
      = (opts.itemQueueName != "" && !(env.queueExists opts.itemQueueName)) ∧
    (resolveItemQueue opts env).reopenedChannel
      = (opts.itemQueueName != "" && !(env.queueExists opts.itemQueueName)) ∧
    (resolveItemQueue opts env).provisioned
      = (opts.itemQueueName == "" || !(env.queueExists opts.itemQueueName)) ∧
    (resolveItemQueue opts env).resolvedName
      = (if opts.itemQueueName != "" && env.queueExists opts.itemQueueName
          then opts.itemQueueName else env.provisionedName) ∧
    (resolveItemQueue opts env).failed = false ∧
    (resolveHealthQueue opts env).validated = false ∧
    (resolveHealthQueue opts env).provisioned = true ∧
    (resolveHealthQueue opts env).resolvedName = env.provisionedName ∧
    (resolveHealthQueue opts env).newOptions = opts ∧
    (resolveThresholdQueue opts env).validated = (opts.thresholdQueueName != "") ∧
    (resolveThresholdQueue opts env).provisioned = false ∧
    (resolveThresholdQueue opts env).failed
      = (opts.thresholdQueueName == "" || !(env.queueExists opts.thresholdQueueName)) := by
  by_cases hn : opts.itemQueueName = "" <;>
    by_cases ht : opts.thresholdQueueName = "" <;>
    by_cases he : env.queueExists opts.itemQueueName = true <;>
    by_cases hte : env.queueExists opts.thresholdQueueName = true <;>
    simp_all [resolveItemQueue, resolveHealthQueue, resolveThresholdQueue]

/-- Claim C3 (code bug): with staleness filtering enabled
(`maxObservationTimeDelta = 1000`) and an unparsable `observationTime`, the
consume callback delivers the message to listeners and emits no error:
`Date.parse` returns `NaN` instead of throwing, `NaN > 1000` is false, and
the error-reporting `catch` branch is unreachable — contradicting the
claimed report-and-drop. -/
theorem unparsable_time_silently_delivered :
    admitMessage staleCheckOptions parseNone 1700000000000 badTimeMsg
      = .delivered := by
  decide

/-- Counterexample to claim C4 as stated: a message with `toZone = "ABSENT"`
under `ignoreAbsent = false` is nevertheless dropped when the staleness
filter rejects it (observation 5000 ms old against a 1000 ms bound), so
delivery is not equivalent to `ignoreAbsent = false` alone. -/
theorem absent_dropped_despite_ignoreAbsent_false_cx :
    staleCheckOptions.ignoreAbsent = false ∧
    absentStaleMsg.toZone = "ABSENT" ∧
    admitMessage staleCheckOptions
      (parseAt "2024-01-01T00:00:00.000Z" 0) 5000 absentStaleMsg
      = .droppedStale := by
  refine ⟨rfl, rfl, ?_⟩
  decide

/-- Claim C4 (amended): a consumed message with `toZone = "ABSENT"` is
delivered to listeners if and only if `ignoreAbsent = false` and the message
passes the staleness filter (in particular, whenever
`maxObservationTimeDelta ≤ 0`, delivery is equivalent to
`ignoreAbsent = false`). -/
theorem absent_delivery_iff (opts : Options) (parseDate : String → JSNum)
    (now : Int) (msg : QueueMessage) (habs : msg.toZone = "ABSENT") :
    admitMessage opts parseDate now msg = .delivered ↔
      (opts.ignoreAbsent = false ∧ passesStaleness opts parseDate now msg = true) := by
  have hz : (msg.toZone == "ABSENT") = true := by simp [habs]
  by_cases hig : opts.ignoreAbsent <;>
    by_cases hmax : opts.maxObservationTimeDelta > 0 <;>
    by_cases hgt : jsGt (jsSub (.int now) (parseDate msg.observationTime))
      opts.maxObservationTimeDelta = true <;>
    simp_all [admitMessage, passesStaleness]

/-- Witness for C4 (amended) at a concrete ABSENT message with staleness
filtering disabled: the equivalence instantiates and both sides hold. -/
theorem absent_delivery_iff_witness :
    admitMessage sampleOptions parseNone 0 absentStaleMsg = .delivered ↔
      (sampleOptions.ignoreAbsent = false ∧
        passesStaleness sampleOptions parseNone 0 absentStaleMsg = true) :=
  absent_delivery_iff sampleOptions parseNone 0 absentStaleMsg rfl

/-- Counterexample to claim C8 as stated: invoking `shutdown()` a second
time after a full shutdown performs a second round of six `close()` attempts
on the (already closed) channels and connections — the function has no guard
flag, so "no second round of close attempts" fails. -/
theorem shutdown_second_round_of_closes_cx :
    (shutdownRun (shutdownRun sampleOptions allOpenRes).newOptions
      (shutdownRun sampleOptions allOpenRes).res).closeCalls = 6 := by
  decide

/-- Claim C8 (amended): `shutdown()` is safely re-invocable rather than
idempotent in attempts — a second invocation re-attempts a `close()` on each
still-referenced channel and connection (the same number of close calls as
the first round), every failure of those closes is swallowed by the empty
`catch` blocks in all six slots so no error is raised, and the resulting
options and resource state are unchanged from the first shutdown. -/
theorem shutdown_reattempts_closes_but_raises_nothing (opts : Options)
    (r : Resources) :
    (shutdownRun (shutdownRun opts r).newOptions (shutdownRun opts r).res).closeCalls
      = (shutdownRun opts r).closeCalls ∧
    (shutdownRun (shutdownRun opts r).newOptions (shutdownRun opts r).res).res
      = (shutdownRun opts r).res ∧
    (shutdownRun (shutdownRun opts r).newOptions (shutdownRun opts r).res).newOptions
      = (shutdownRun opts r).newOptions ∧
    (shutdownRun (shutdownRun opts r).newOptions (shutdownRun opts r).res).caughtErrors
      = 6 := by
  refine ⟨?_, ?_, ?_, ?_⟩ <;>
    simp [shutdownRun, tryCloseResource_again]

/-- Counterexample to claim C9 as stated: after a started supervisor
schedules a retry and `shutdown()` runs, the retry timer is still pending —
`shutdown()` contains no `clearTimeout`, so it does not cancel pending retry
timers. -/
theorem shutdown_leaves_retry_pending_cx :
    (runSup sampleOptions
      [SupEvent.startEv, SupEvent.connectFail, SupEvent.shutdownEv]).started
      = false ∧
    (runSup sampleOptions
      [SupEvent.startEv, SupEvent.connectFail, SupEvent.shutdownEv]).timer.live
      = [0] := by
  decide

/-- Claim C9 (amended): `shutdown()` does not cancel pending retry timers —
it leaves the timer state untouched — but it clears `_started` and closes
every assigned channel and connection, and the claimed consequence still
holds: a previously scheduled retry that fires after `shutdown()` returns at
the `if (!this._started) return;` guard and opens no new broker connection,
while a `start()` call after shutdown first clears the pending handle. -/
theorem shutdown_blocks_stale_retry (opts : Options) (evs : List SupEvent)
    (h : Int) (r : Resources) :
    (supStep opts (runSup opts evs) .shutdownEv).timer = (runSup opts evs).timer ∧
    (supStep opts (runSup opts evs) .shutdownEv).started = false ∧
    (supStep opts (supStep opts (runSup opts evs) .shutdownEv)
      (.fireTimer h)).connectAttempts
      = (supStep opts (runSup opts evs) .shutdownEv).connectAttempts ∧
    (supStep opts (supStep opts (runSup opts evs) .shutdownEv) .startEv).timer.live
      = [] ∧
    (shutdownRun opts r).res.itemChan ≠ .openRes ∧
    (shutdownRun opts r).res.itemConn ≠ .openRes ∧
    (shutdownRun opts r).res.threshChan ≠ .openRes ∧
    (shutdownRun opts r).res.threshConn ≠ .openRes ∧
    (shutdownRun opts r).res.healthChan ≠ .openRes ∧
    (shutdownRun opts r).res.healthConn ≠ .openRes := by
  refine ⟨rfl, rfl, ?_, ?_, ?_, ?_, ?_, ?_, ?_, ?_⟩
  · by_cases hm : h ∈ (runSup opts evs).timer.live <;> simp [supStep, hm]
  · have hOk : timerOk (supStep opts (runSup opts evs) .shutdownEv).timer :=
      timerOk_runSup opts evs
    simp [supStep]
    exact live_clearTimeoutOn_self _ hOk
  · exact tryCloseResource_not_open r.itemChan
  · exact tryCloseResource_not_open r.itemConn
  · exact tryCloseResource_not_open r.threshChan
  · exact tryCloseResource_not_open r.threshConn
  · exact tryCloseResource_not_open r.healthChan
  · exact tryCloseResource_not_open r.healthConn

end IQC
